import Mathlib

/-
Verification of the TimeShot parkour-shooter movement core.

This file gives a shallow embedding, over the real numbers, of the player
movement / physics routines of the repository (src/src/systems/physics.py,
src/src/systems/wall_running.py, src/src/core/player.py,
src/src/core/weapons.py, src/src/systems/targets.py, src/utils.py) and
proves, or refutes, the behavioural claims made about them.

Modelling conventions:
  * Python floats are modelled as real numbers; `math.sqrt` is `Real.sqrt`.
  * ursina's `Vec3` is a record of three reals; `v.normalized()` returns the
    zero vector on zero input, matching the engine's behaviour.
  * `held_keys[...]` is a record of booleans; the arithmetic `held_keys['d']
    - held_keys['a']` is modelled through a boolean-to-real coercion.
  * `raycast` is a parameter: a function from (origin, direction, distance)
    to a `HitInfo` record.  For call sites wrapped in try/except the world
    function returns `Except Unit HitInfo`, the error case standing for a
    raised exception.
  * Python truthiness of an optional vector argument (`not origin`) is
    modelled as: the value is missing or it is the zero vector.
  * The mutable `PlayerController` / `WeaponController` objects become
    records mutated by explicit state-passing.
-/

namespace TimeShot

open Classical

/-- A 3-component real vector, modelling ursina's `Vec3`. -/
structure Vec3 where
  x : ℝ
  y : ℝ
  z : ℝ

/-- The zero vector. -/
def Vec3.zero : Vec3 := ⟨0, 0, 0⟩

/-- Componentwise addition. -/
def Vec3.add (a b : Vec3) : Vec3 := ⟨a.x + b.x, a.y + b.y, a.z + b.z⟩

/-- Componentwise subtraction. -/
def Vec3.sub (a b : Vec3) : Vec3 := ⟨a.x - b.x, a.y - b.y, a.z - b.z⟩

/-- Scalar multiple of a vector. -/
def Vec3.smul (v : Vec3) (c : ℝ) : Vec3 := ⟨v.x * c, v.y * c, v.z * c⟩

/-- Negation of a vector. -/
def Vec3.neg (v : Vec3) : Vec3 := ⟨-v.x, -v.y, -v.z⟩

/-- Dot product. -/
def Vec3.dot (a b : Vec3) : ℝ := a.x * b.x + a.y * b.y + a.z * b.z

/-- Euclidean length, as computed by `Vec3.length()`. -/
noncomputable def Vec3.length (v : Vec3) : ℝ :=
  Real.sqrt (v.x ^ 2 + v.y ^ 2 + v.z ^ 2)

/-- `Vec3.normalized()`: the unit vector in the direction of `v`, or the
zero vector when `v` has zero length (the engine's convention). -/
noncomputable def Vec3.normalized (v : Vec3) : Vec3 :=
  if v.length = 0 then Vec3.zero else v.smul (1 / v.length)

/-- Horizontal speed `sqrt(vx**2 + vz**2)` as computed throughout the code. -/
noncomputable def hspeed (v : Vec3) : ℝ := Real.sqrt (v.x ^ 2 + v.z ^ 2)

/-- Linear interpolation `lerp(a, b, t) = a + (b - a) * t`. -/
def lerpR (a b t : ℝ) : ℝ := a + (b - a) * t

/-- Componentwise linear interpolation of vectors. -/
def lerpV (a b : Vec3) (t : ℝ) : Vec3 :=
  ⟨lerpR a.x b.x t, lerpR a.y b.y t, lerpR a.z b.z t⟩

/-! ### Configuration constants (src/config/config.py, src/config.py) -/

/-- `PLAYER_GRAVITY = 0.5` — gravity multiplier for the player. -/
def PLAYER_GRAVITY : ℝ := 0.5

/-- `PLAYER_JUMP_HEIGHT = 2` — maximum jump height in units. -/
def PLAYER_JUMP_HEIGHT : ℝ := 2

/-- `SPRINT_MULTIPLIER = 1.8` — speed multiplier when sprinting. -/
def SPRINT_MULTIPLIER : ℝ := 1.8

/-- `ACCELERATION = 20` — how quickly the player accelerates from input. -/
def ACCELERATION : ℝ := 20

/-- `FRICTION = 15` — how quickly the player decelerates without input. -/
def FRICTION : ℝ := 15

/-- `MAX_SPEED = 7` — maximum horizontal movement speed. -/
def MAX_SPEED : ℝ := 7

/-- `SLIDE_FRICTION = 6` — how quickly slide velocity decreases. -/
def SLIDE_FRICTION : ℝ := 6

/-- `SLIDE_START_VELOCITY = 40` — initial velocity when starting a slide. -/
def SLIDE_START_VELOCITY : ℝ := 40

/-- `SLIDE_COOLDOWN = 2.0` — seconds before the player can slide again. -/
def SLIDE_COOLDOWN : ℝ := 2.0

/-- `SLIDE_CAMERA_Y = 1.0` — camera height while sliding. -/
def SLIDE_CAMERA_Y : ℝ := 1.0

/-- `NORMAL_CAMERA_Y = 1.7` — standing camera height. -/
def NORMAL_CAMERA_Y : ℝ := 1.7

/-- `GRAVITY_FORCE = 20.0` — slope acceleration applied while sliding. -/
def GRAVITY_FORCE : ℝ := 20.0

/-- `DASH_COOLDOWN = 1.0` — seconds between dash uses. -/
def DASH_COOLDOWN : ℝ := 1.0

/-- `DASH_FORCE = 50` — force applied to velocity during a dash. -/
def DASH_FORCE : ℝ := 50

/-- `WALL_RUN_SPEED = 18` — speed while wall running. -/
def WALL_RUN_SPEED : ℝ := 18

/-- `WALL_RUN_MIN_SPEED = 6` — minimum speed required to start wall running. -/
def WALL_RUN_MIN_SPEED : ℝ := 6

/-- `WALL_RUN_JUMP_FORCE = 20` — force applied when jumping off a wall. -/
def WALL_RUN_JUMP_FORCE : ℝ := 20

/-- `PLAYER_CENTER_OFFSET = Vec3(0, 1, 0)` (src/config.py, used by
`check_collision` in src/utils.py). -/
def PLAYER_CENTER_OFFSET : Vec3 := ⟨0, 1, 0⟩

/-- `COLLISION_BUFFER = 0.5` (src/config.py, used by `check_collision`). -/
def COLLISION_BUFFER : ℝ := 0.5

/-- Modelled from the spec: constants that the code references but that are
absent from the configuration files shipped under src/ (`JUMP_SPEED_BOOST`,
`JUMP_SPEED_DURATION`, `JUMP_SPEED_PRESERVE`, `JUMP_SPEED_DIRECTIONAL`,
`JUMP_CUT_ENABLED`, `JUMP_CUT_MULTIPLIER`, `JUMP_BUFFER_TIME`,
`COYOTE_TIME`, `WALL_END_MOMENTUM_KICK`, `GRAPPLE_ENABLED`,
`GRAPPLE_RANGE`, `GRAPPLE_COOLDOWN`).  The spec calls them configurable
numeric/boolean constants, so they are kept abstract here and every
theorem quantifies over them. -/
structure ExtConfig where
  JUMP_SPEED_BOOST : ℝ
  JUMP_SPEED_DURATION : ℝ
  JUMP_SPEED_PRESERVE : Bool
  JUMP_SPEED_DIRECTIONAL : Bool
  JUMP_CUT_ENABLED : Bool
  JUMP_CUT_MULTIPLIER : ℝ
  JUMP_BUFFER_TIME : ℝ
  COYOTE_TIME : ℝ
  WALL_END_MOMENTUM_KICK : ℝ
  GRAPPLE_ENABLED : Bool
  GRAPPLE_RANGE : ℝ
  GRAPPLE_COOLDOWN : ℝ

/-! ### Input, camera and world-geometry interfaces -/

/-- The per-frame `held_keys` snapshot for the keys the movement code reads. -/
structure Keys where
  w : Bool
  a : Bool
  s : Bool
  d : Bool
  shift : Bool
  ctrl : Bool
  space : Bool
  q : Bool

/-- Coercion of a held key to the numeral ursina exposes (`1` held, `0` not). -/
def b2r (b : Bool) : ℝ := if b then 1 else 0

/-- The camera basis vectors read by the movement code. -/
structure Camera where
  forward : Vec3
  right : Vec3

/-- Result record of an ursina `raycast` call: whether something was hit,
the surface normal, the hit point, and whether a hit entity is attached. -/
structure HitInfo where
  hit : Bool
  normal : Vec3
  point : Vec3
  entity : Bool

instance : Inhabited HitInfo := ⟨⟨false, Vec3.zero, Vec3.zero, false⟩⟩

/-- World-geometry query: `raycast(origin, direction, distance)` at call
sites that are not wrapped in try/except. -/
def Ray : Type := Vec3 → Vec3 → ℝ → HitInfo

/-- World-geometry query at call sites wrapped in try/except; the error
case models the underlying raycast raising an exception. -/
def RayE : Type := Vec3 → Vec3 → ℝ → Except Unit HitInfo

/-! ### Player state (the mutable fields of `PlayerController` plus the
engine-owned fields the code reads and writes) -/

/-- The per-frame mutable player record: `movement_velocity`, the mode
flags and timers of `PlayerController`, and the engine controller fields
(`player.position`, `player.grounded`, `player.gravity`,
`player.velocity_y`, `player.camera_pivot.y`) that the movement code
touches. -/
structure PState where
  velocity : Vec3
  is_sliding : Bool
  slide_velocity : ℝ
  slide_direction : Vec3
  is_airborne : Bool
  is_sprinting : Bool
  slide_timer : ℝ
  dash_timer : ℝ
  is_wall_running : Bool
  wall_run_timer : ℝ
  wall_normal : Vec3
  wall_run_side : ℤ
  jump_speed_active : Bool
  jump_speed_timer : ℝ
  jump_direction : Vec3
  jump_buffer_timer : ℝ
  coyote_timer : ℝ
  was_grounded : Bool
  jump_held : Bool
  position : Vec3
  grounded : Bool
  gravity : ℝ
  player_velocity_y : ℝ
  camera_pivot_y : ℝ

/-! ### Ground locomotion (src/src/systems/physics.py, src/src/core/player.py) -/

/-- `PlayerController.handle_sprint_input` (player.py:122-129): set the
sprint flag and return the target max speed for the frame. -/
noncomputable def handle_sprint_input (k : Keys) (s : PState) : ℝ × PState :=
  if k.shift = true ∧ ¬ s.is_sliding = true then
    (MAX_SPEED * SPRINT_MULTIPLIER, { s with is_sprinting := true })
  else
    (MAX_SPEED, { s with is_sprinting := false })

/-- The raw input vector `Vec3(d - a, 0, w - s)`, normalized when nonzero
(physics.py:96-102). -/
noncomputable def input_dir (k : Keys) : Vec3 :=
  let v : Vec3 := ⟨b2r k.d - b2r k.a, 0, b2r k.w - b2r k.s⟩
  if v.length > 0 then v.normalized else v

/-- World-space move direction: camera-basis combination of the input
vector with the vertical component dropped, normalized when nonzero
(physics.py:104-111). -/
noncomputable def move_dir_world (k : Keys) (cam : Camera) : Vec3 :=
  let idir := input_dir k
  if idir.length > 0 then
    let m := (cam.forward.smul idir.z).add (cam.right.smul idir.x)
    let m : Vec3 := ⟨m.x, 0, m.z⟩
    if m.length > 0 then m.normalized else m
  else Vec3.zero

/-- The friction branch of `handle_momentum_movement` (physics.py:117-126):
subtract a friction impulse from the horizontal velocity, zeroing it when
the impulse is at least the current horizontal speed. -/
noncomputable def apply_friction (dt : ℝ) (s : PState) : PState :=
  let horiz : Vec3 := ⟨s.velocity.x, 0, s.velocity.z⟩
  if horiz.length > 0 then
    let friction_force := horiz.normalized.smul (FRICTION * dt)
    if friction_force.length ≥ horiz.length then
      { s with velocity := { s.velocity with x := 0, z := 0 } }
    else
      { s with velocity := { s.velocity with
          x := s.velocity.x - friction_force.x,
          z := s.velocity.z - friction_force.z } }
  else s

/-- The speed multiplier of physics.py:131-136: `1.0`, raised to `3.0`
inside the half-second window after a dash fires, and to
`JUMP_SPEED_BOOST` while the jump speed boost is active. -/
noncomputable def speed_multiplier (cfg : ExtConfig) (s : PState) : ℝ :=
  let m : ℝ := 1.0
  let m := if s.dash_timer > DASH_COOLDOWN - 0.5 then max m 3.0 else m
  if s.jump_speed_active = true then max m cfg.JUMP_SPEED_BOOST else m

/-- The speed-cap step of physics.py:129-143: when the horizontal speed
exceeds `target_max_speed * speed_multiplier`, scale both horizontal
velocity components by the same factor. -/
noncomputable def cap_speed (cfg : ExtConfig) (target_max_speed : ℝ)
    (s : PState) : PState :=
  let horiz_speed := Real.sqrt (s.velocity.x ^ 2 + s.velocity.z ^ 2)
  let effective_max_speed := target_max_speed * speed_multiplier cfg s
  if horiz_speed > effective_max_speed then
    let scale := effective_max_speed / horiz_speed
    { s with velocity := { s.velocity with
        x := s.velocity.x * scale,
        z := s.velocity.z * scale } }
  else s

/-- The acceleration-or-friction phase of `handle_momentum_movement`
(physics.py:113-126). -/
noncomputable def momentum_pre_cap (k : Keys) (cam : Camera) (dt : ℝ)
    (s : PState) : PState :=
  let mdir := move_dir_world k cam
  if mdir.length > 0 then
    { s with velocity := s.velocity.add (mdir.smul (ACCELERATION * dt)) }
  else apply_friction dt s

/-- `handle_momentum_movement` (physics.py:93-143): acceleration or
friction followed by the speed cap. -/
noncomputable def handle_momentum_movement (cfg : ExtConfig) (k : Keys)
    (cam : Camera) (dt : ℝ) (target_max_speed : ℝ) (s : PState) : PState :=
  cap_speed cfg target_max_speed (momentum_pre_cap k cam dt s)

/-! ### Jumping (player.py:261-306, physics.py:145-163) -/

/-- `PlayerController.handle_jump_input` (player.py:278-295): register a
fresh press into the jump buffer, then report whether a buffered jump can
execute (grounded or within coyote time). -/
noncomputable def handle_jump_input (cfg : ExtConfig) (k : Keys)
    (s : PState) : Bool × PState :=
  let s1 :=
    if k.space = true then
      if ¬ s.jump_held = true then
        { s with jump_buffer_timer := cfg.JUMP_BUFFER_TIME, jump_held := true }
      else s
    else { s with jump_held := false }
  if s1.jump_buffer_timer > 0 ∧ (s1.grounded = true ∨ s1.coyote_timer > 0) then
    (true, s1)
  else (false, s1)

/-- `PlayerController.consume_jump` (player.py:303-306): zero the jump
buffer and the coyote timer. -/
def consume_jump (s : PState) : PState :=
  { s with jump_buffer_timer := 0, coyote_timer := 0 }

/-- `PlayerController.activate_jump_speed` (player.py:206-259): start the
jump speed boost, pick the boost direction, and write the boosted
horizontal velocity. -/
noncomputable def activate_jump_speed (cfg : ExtConfig) (k : Keys)
    (cam : Camera) (s : PState) : PState :=
  if ¬ cfg.JUMP_SPEED_PRESERVE = true ∧ s.jump_speed_active = true then s
  else
    let s1 := { s with jump_speed_active := true,
                       jump_speed_timer := cfg.JUMP_SPEED_DURATION }
    let camera_fwd_flat : Vec3 :=
      (⟨cam.forward.x, 0, cam.forward.z⟩ : Vec3).normalized
    let jdir :=
      if cfg.JUMP_SPEED_DIRECTIONAL = true then
        let idir := input_dir k
        if idir.length > 0 then
          let d := (cam.forward.smul idir.z).add (cam.right.smul idir.x)
          let d : Vec3 := ⟨d.x, 0, d.z⟩
          if d.length > 0 then d.normalized else camera_fwd_flat
        else camera_fwd_flat
      else
        let horiz_vel : Vec3 := ⟨s1.velocity.x, 0, s1.velocity.z⟩
        if horiz_vel.length > 0 then horiz_vel.normalized else camera_fwd_flat
    let s2 := { s1 with jump_direction := jdir }
    if cfg.JUMP_SPEED_PRESERVE = true then
      let boost := jdir.smul (MAX_SPEED * (cfg.JUMP_SPEED_BOOST - 1.0))
      { s2 with velocity := { s2.velocity with
          x := s2.velocity.x + boost.x, z := s2.velocity.z + boost.z } }
    else
      let boost := jdir.smul (MAX_SPEED * cfg.JUMP_SPEED_BOOST)
      { s2 with velocity := { s2.velocity with x := boost.x, z := boost.z } }

/-- The initial jump velocity `sqrt(2 * (9.8 * PLAYER_GRAVITY) *
PLAYER_JUMP_HEIGHT)` of physics.py:150-152. -/
noncomputable def jump_velocity : ℝ :=
  Real.sqrt (2 * (9.8 * PLAYER_GRAVITY) * PLAYER_JUMP_HEIGHT)

/-- The jump-execution block of `handle_jumping` (physics.py:148-160):
set the vertical velocity, mark airborne, consume the buffered input and
activate the jump speed boost. -/
noncomputable def execute_jump (cfg : ExtConfig) (k : Keys) (cam : Camera)
    (s : PState) : PState :=
  let s1 := { s with velocity := { s.velocity with y := jump_velocity },
                     is_airborne := true }
  activate_jump_speed cfg k cam (consume_jump s1)

/-- `PlayerController.handle_jump_cut` (player.py:297-301): cut the ascent
when the jump key is released while moving upward. -/
noncomputable def handle_jump_cut (cfg : ExtConfig) (k : Keys)
    (s : PState) : PState :=
  if cfg.JUMP_CUT_ENABLED = true ∧ ¬ k.space = true ∧ s.velocity.y > 0 then
    { s with velocity :=
        { s.velocity with y := s.velocity.y * cfg.JUMP_CUT_MULTIPLIER } }
  else s

/-- `handle_jumping` (physics.py:145-163): execute a buffered jump when
possible, then apply the variable-height jump cut. -/
noncomputable def handle_jumping (cfg : ExtConfig) (k : Keys) (cam : Camera)
    (s : PState) : PState :=
  let r := handle_jump_input cfg k s
  let s2 := if r.1 = true then execute_jump cfg k cam r.2 else r.2
  handle_jump_cut cfg k s2

/-! ### Dash (player.py:169-196) -/

/-- `PlayerController.handle_dash_input` (player.py:169-196): on a dash,
add a horizontal impulse along the camera's flattened forward direction
and a conditional vertical impulse — grounded dashes climb only when
looking up, airborne dashes clamp the resulting vertical velocity to
[-30, 30] — then start the cooldown. -/
noncomputable def handle_dash_input (k : Keys) (cam : Camera)
    (s : PState) : PState :=
  if k.q = true ∧ s.dash_timer ≤ 0 then
    let horizontal_force := DASH_FORCE * 1.5
    let vertical_force := DASH_FORCE * 0.6
    let dash_direction := cam.forward.normalized
    let horizontal_component : Vec3 :=
      (⟨dash_direction.x, 0, dash_direction.z⟩ : Vec3).normalized
    let s1 :=
      if horizontal_component.length > 0 then
        { s with velocity := { s.velocity with
            x := s.velocity.x + horizontal_component.x * horizontal_force,
            z := s.velocity.z + horizontal_component.z * horizontal_force } }
      else s
    let s2 :=
      if s1.grounded = true then
        if dash_direction.y > 0 then
          { s1 with velocity := { s1.velocity with
              y := s1.velocity.y + dash_direction.y * vertical_force * 0.5 } }
        else s1
      else
        let vertical_boost := dash_direction.y * vertical_force * 0.7
        let new_y_velocity := s1.velocity.y + vertical_boost
        { s1 with velocity := { s1.velocity with
            y := max (-30) (min 30 new_y_velocity) } }
    { s2 with dash_timer := DASH_COOLDOWN }
  else s

/-! ### Sliding (player.py:131-167) -/

/-- `PlayerController.handle_slide_trigger` (player.py:131-140): start a
slide when the slide key is pressed while sprinting, not already sliding
and off cooldown; zero the horizontal velocity on entry.
`player_forward` is the entity's facing vector `self.player.forward`. -/
noncomputable def handle_slide_trigger (k : Keys) (player_forward : Vec3)
    (s : PState) : PState :=
  if k.ctrl = true ∧ ¬ s.is_sliding = true ∧ s.slide_timer ≤ 0 ∧
      s.is_sprinting = true then
    { s with is_sliding := true,
             slide_velocity := SLIDE_START_VELOCITY,
             slide_direction := player_forward.normalized,
             slide_timer := SLIDE_COOLDOWN,
             velocity := { s.velocity with x := 0, z := 0 } }
  else s

/-- `PlayerController.handle_sliding_physics` (player.py:142-167): slope
blending and acceleration, collision-checked slide movement, camera
easing, friction floored at zero, and the jump exit. -/
noncomputable def handle_sliding_physics (world : Ray) (k : Keys) (dt : ℝ)
    (s : PState) : PState :=
  if s.is_sliding = true then
    let hit_info := world s.position ⟨0, -1, 0⟩ 2
    let s1 :=
      if hit_info.hit = true then
        let slope_normal := hit_info.normal
        let downhill : Vec3 :=
          (⟨-slope_normal.x, 0, -slope_normal.z⟩ : Vec3).normalized
        { s with
            slide_direction := lerpV s.slide_direction downhill (dt * 2),
            slide_velocity := s.slide_velocity +
              GRAVITY_FORCE * (1 - hit_info.normal.y) * dt }
      else s
    let slide_step := s1.slide_direction.smul (s1.slide_velocity * dt)
    let hit := world s1.position s1.slide_direction (slide_step.length + 0.5)
    let s2 :=
      if ¬ hit.hit = true then
        { s1 with position := s1.position.add slide_step }
      else { s1 with is_sliding := false, slide_velocity := 0 }
    let s3 := { s2 with
        camera_pivot_y := lerpR s2.camera_pivot_y SLIDE_CAMERA_Y (dt * 8),
        slide_velocity := max (s2.slide_velocity - SLIDE_FRICTION * dt) 0 }
    if k.space = true then { s3 with is_sliding := false, slide_velocity := 0 }
    else s3
  else
    { s with camera_pivot_y := lerpR s.camera_pivot_y NORMAL_CAMERA_Y (dt * 6) }

/-! ### Wall running (src/src/systems/wall_running.py) -/

/-- The probe height offsets `[0.5, 1.0, 1.5]` used by the wall-running
raycasts. -/
def wall_probe_offsets : List ℝ := [0.5, 1.0, 1.5]

/-- The probe distances `[2.5, 3.0]` used by the continued-wall check. -/
def wall_probe_distances : List ℝ := [2.5, 3.0]

/-- `detect_wall_for_running` (wall_running.py:36-102): decide whether a
wall run can start — forward key held, enough horizontal speed, a wall
hit on the side matching the held strafe key with a near-vertical normal,
and movement toward that wall.  The nested early-return conditionals of
the source are flattened into conjunctions. -/
noncomputable def detect_wall_for_running (world : Ray) (k : Keys)
    (cam : Camera) (s : PState) : Option Vec3 × ℤ :=
  if s.is_sliding = true then (none, 0)
  else if ¬ k.w = true then (none, 0)
  else if Real.sqrt (s.velocity.x ^ 2 + s.velocity.z ^ 2) <
      WALL_RUN_MIN_SPEED then (none, 0)
  else
    let player_right := cam.right.normalized
    let right_hits :=
      (wall_probe_offsets.map (fun ho =>
        world (s.position.add ⟨0, ho, 0⟩) player_right 2.0)).filter
        (fun h => h.hit)
    let left_hits :=
      (wall_probe_offsets.map (fun ho =>
        world (s.position.add ⟨0, ho, 0⟩) player_right.neg 2.0)).filter
        (fun h => h.hit)
    let movement_dir0 : Vec3 := ⟨s.velocity.x, 0, s.velocity.z⟩
    let movement_dir :=
      if movement_dir0.length > 0 then movement_dir0.normalized
      else movement_dir0
    let right_dot :=
      if movement_dir.length > 0 then movement_dir.dot player_right else 0
    let left_dot :=
      if movement_dir.length > 0 then movement_dir.dot player_right.neg else 0
    if right_hits ≠ [] ∧ k.d = true ∧ |right_hits.headI.normal.y| < 0.5 ∧
        right_dot > 0.1 then
      (some right_hits.headI.normal, 1)
    else if left_hits ≠ [] ∧ k.a = true ∧ |left_hits.headI.normal.y| < 0.5 ∧
        left_dot > 0.1 then
      (some left_hits.headI.normal, -1)
    else (none, 0)

/-- `disable_ursina_physics` (wall_running.py:180-196): zero the engine
gravity and vertical velocity and force the engine grounded flag. -/
def disable_ursina_physics (s : PState) : PState :=
  { s with gravity := 0, player_velocity_y := 0, grounded := true }

/-- `restore_ursina_physics` (wall_running.py:198-210): restore the
engine gravity to `PLAYER_GRAVITY`. -/
def restore_ursina_physics (s : PState) : PState :=
  { s with gravity := PLAYER_GRAVITY }

/-- `apply_wall_running_physics` (wall_running.py:104-178): disable the
engine physics, zero vertical velocity, add the look-driven vertical
nudge, set the horizontal velocity along the wall tangent at
`WALL_RUN_SPEED`, add the inward stick impulse, and move the player. -/
noncomputable def apply_wall_running_physics (cam : Camera) (dt : ℝ)
    (s : PState) : PState :=
  let s0 := disable_ursina_physics s
  let s0 := { s0 with player_velocity_y := 0,
                      velocity := { s0.velocity with y := 0 } }
  let forward_dir := cam.forward.normalized
  let vertical_control :=
    if forward_dir.y > 0.1 then forward_dir.y * WALL_RUN_SPEED * 0.3
    else if forward_dir.y < -0.1 then forward_dir.y * WALL_RUN_SPEED * 0.3
    else 0
  let s1 :=
    if |vertical_control| > 0.01 then
      { s0 with position := s0.position.add ⟨0, vertical_control * dt, 0⟩ }
    else s0
  let horizontal_forward : Vec3 := ⟨forward_dir.x, 0, forward_dir.z⟩
  let horizontal_velocity :=
    if horizontal_forward.length > 0 then
      let hf := horizontal_forward.normalized
      let wall_horizontal :=
        hf.sub (s1.wall_normal.smul (hf.dot s1.wall_normal))
      if wall_horizontal.length > 0 then
        wall_horizontal.normalized.smul WALL_RUN_SPEED
      else Vec3.zero
    else
      let wall_right : Vec3 :=
        (⟨-s1.wall_normal.z, 0, s1.wall_normal.x⟩ : Vec3).normalized
      wall_right.smul (WALL_RUN_SPEED * 0.5)
  let s2 := { s1 with velocity := { s1.velocity with
      x := horizontal_velocity.x, z := horizontal_velocity.z } }
  let stick_force := s2.wall_normal.smul (-20.0 * dt)
  let s3 := { s2 with velocity := { s2.velocity with
      x := s2.velocity.x + stick_force.x,
      z := s2.velocity.z + stick_force.z } }
  let movement_step : Vec3 := ⟨s3.velocity.x * dt, 0, s3.velocity.z * dt⟩
  let s4 := { s3 with position := s3.position.add movement_step }
  { s4 with player_velocity_y := 0 }

/-- The continued-wall probe of wall_running.py:240-255: scan height
offsets and distances in order and return the first hit, if any. -/
noncomputable def first_wall_hit (world : Ray) (pos : Vec3)
    (dir : Vec3) : Option HitInfo :=
  ((wall_probe_offsets.flatMap (fun ho =>
      wall_probe_distances.map (fun dist => (ho, dist)))).map
    (fun p => world (pos.add ⟨0, p.1, 0⟩) dir p.2)).find?
    (fun h => h.hit)

/-- `handle_wall_running` (wall_running.py:212-313): start a wall run when
a wall is detected while airborne; while active, re-validate the wall,
apply the wall-end momentum kick or the wall jump, and on any stop reset
the wall-run state and restore the engine physics, otherwise apply the
wall-running physics. -/
noncomputable def handle_wall_running (cfg : ExtConfig) (world : Ray)
    (k : Keys) (cam : Camera) (dt : ℝ) (s : PState) : PState :=
  if ¬ s.is_wall_running = true then
    let det := detect_wall_for_running world k cam s
    match det.1 with
    | none => s
    | some n =>
      if ¬ n = Vec3.zero ∧ det.2 ≠ 0 ∧ ¬ s.grounded = true then
        { s with is_wall_running := true, wall_normal := n,
                 wall_run_side := det.2, wall_run_timer := 0 }
      else s
  else
    let sA := { s with wall_run_timer := s.wall_run_timer + dt }
    let check_direction :=
      if sA.wall_run_side = 1 then cam.right else cam.right.neg
    let found := first_wall_hit world sA.position check_direction
    let sB := found.elim sA (fun h => { sA with wall_normal := h.normal })
    let wall_still_there := found.isSome
    -- Stop condition 1: the wall ended — momentum kick along the wall.
    let sC :=
      if ¬ wall_still_there = true then
        let forward_dir := cam.forward.normalized
        let horizontal_forward : Vec3 := ⟨forward_dir.x, 0, forward_dir.z⟩
        if horizontal_forward.length > 0 then
          let hf := horizontal_forward.normalized
          let wall_direction :=
            hf.sub (sB.wall_normal.smul (hf.dot sB.wall_normal))
          if wall_direction.length > 0 then
            let wd := wall_direction.normalized
            let kick_force := WALL_RUN_SPEED * cfg.WALL_END_MOMENTUM_KICK
            { sB with velocity :=
                ⟨wd.x * kick_force, WALL_RUN_JUMP_FORCE * 0.3,
                 wd.z * kick_force⟩ }
          else sB
        else sB
      else sB
    let stop1 := ¬ wall_still_there = true
    -- Stop condition 2: jump pressed — kick away from the wall.
    let sD :=
      if k.space = true then
        let jump_direction := sC.wall_normal.normalized
        let kick_force := WALL_RUN_JUMP_FORCE * 1.5
        { sC with velocity :=
            ⟨jump_direction.x * kick_force, WALL_RUN_JUMP_FORCE * 1.2,
             jump_direction.z * kick_force⟩ }
      else sC
    let should_stop := stop1 ∨ k.space = true
    if should_stop then
      restore_ursina_physics
        { sD with is_wall_running := false, wall_run_timer := 0,
                  wall_run_side := 0 }
    else
      apply_wall_running_physics cam dt sD

/-! ### Collision probe (src/utils.py:16-45) -/

/-- Python truthiness of an optional vector argument: `not x` holds when
the value is missing or is the zero vector. -/
def pyFalsyV (v : Option Vec3) : Prop :=
  v = none ∨ v = some Vec3.zero

/-- `check_collision` (utils.py:16-45): validate the inputs, offset the
origin to body center, add the safety buffer to the distance, and convert
any exception from the underlying raycast into `none`. -/
noncomputable def check_collision (world : RayE) (origin direction : Option Vec3)
    (dist : ℝ) : Option HitInfo :=
  if pyFalsyV origin ∨ pyFalsyV direction ∨ dist ≤ 0 then none
  else
    match origin, direction with
    | some o, some d =>
      match world (o.add PLAYER_CENTER_OFFSET) d (dist + COLLISION_BUFFER) with
      | Except.ok h => some h
      | Except.error _ => none
    | _, _ => none

/-! ### Grapple (src/src/core/weapons.py:277-310) -/

/-- The mutable grapple state of `WeaponController`: cooldown timer,
active flag, anchor point, and whether the visual line entity exists. -/
structure WState where
  grapple_timer : ℝ
  grapple_active : Bool
  grapple_point : Option Vec3
  grapple_line : Bool

/-- `WeaponController.create_grapple_line` (weapons.py:311-): create the
visual grapple line when an anchor point is stored. -/
def create_grapple_line (w : WState) : WState :=
  if w.grapple_point.isSome then { w with grapple_line := true } else w

/-- `WeaponController.fire_grapple` (weapons.py:277-310): gated by the
enable flag, the cooldown and the active flag; raycast forward up to
`GRAPPLE_RANGE`; on a hit with an attached entity store the anchor, go
active, create the line and start the cooldown; return whether the
grapple attached.  A raycast exception yields `false`. -/
noncomputable def fire_grapple (cfg : ExtConfig) (world : RayE)
    (cam_position cam_forward : Vec3) (w : WState) : Bool × WState :=
  if ¬ cfg.GRAPPLE_ENABLED = true ∨ w.grapple_timer > 0 then (false, w)
  else if w.grapple_active = true then (false, w)
  else
    match world cam_position cam_forward cfg.GRAPPLE_RANGE with
    | Except.error _ => (false, w)
    | Except.ok hit_info =>
      if hit_info.hit = true ∧ hit_info.entity = true then
        let w1 := { w with grapple_point := some hit_info.point,
                           grapple_active := true }
        let w2 := create_grapple_line w1
        (true, { w2 with grapple_timer := cfg.GRAPPLE_COOLDOWN })
      else (false, w)

/-! ### Target pool (src/src/systems/targets.py:20-49) -/

/-- A spawned target entity (position only; nothing else matters for the
pool-size claims). -/
structure Target where
  py : ℝ
  pz : ℝ

/-- A Python value passed as the `count` argument of `spawn_targets`:
either an `int` or some non-int value. -/
inductive PyCount where
  | int : ℤ → PyCount
  | other : PyCount

/-- `TargetManager.spawn_targets` (targets.py:20-49): reject a non-int,
non-positive or greater-than-50 count, otherwise append `count` freshly
spawned targets to the pool (`mk` abstracts the random position of the
i-th spawned target). -/
def spawn_targets (mk : ℕ → Target) (pool : List Target)
    (count : PyCount) : List Target :=
  match count with
  | .other => pool
  | .int n =>
    if n ≤ 0 ∨ n > 50 then pool
    else pool ++ (List.range n.toNat).map mk

/-! ### Basic vector lemmas -/

/-- Vector lengths are nonnegative. -/
lemma Vec3.length_nonneg (v : Vec3) : 0 ≤ v.length :=
  Real.sqrt_nonneg _

/-- The zero vector has length zero. -/
lemma Vec3.length_zero : Vec3.zero.length = 0 := by
  simp [Vec3.zero, Vec3.length]

/-- A vector has length zero exactly when all components vanish. -/
lemma Vec3.length_eq_zero_iff (v : Vec3) :
    v.length = 0 ↔ v.x = 0 ∧ v.y = 0 ∧ v.z = 0 := by
  rw [Vec3.length, Real.sqrt_eq_zero']
  constructor
  · intro h
    refine ⟨?_, ?_, ?_⟩ <;>
      nlinarith [sq_nonneg v.x, sq_nonneg v.y, sq_nonneg v.z]
  · rintro ⟨hx, hy, hz⟩
    rw [hx, hy, hz]; norm_num

/-- Length of a scalar multiple. -/
lemma Vec3.length_smul (v : Vec3) (c : ℝ) :
    (v.smul c).length = |c| * v.length := by
  unfold Vec3.smul Vec3.length
  dsimp only
  rw [show (v.x * c) ^ 2 + (v.y * c) ^ 2 + (v.z * c) ^ 2 =
      c ^ 2 * (v.x ^ 2 + v.y ^ 2 + v.z ^ 2) by ring]
  rw [Real.sqrt_mul (sq_nonneg c), Real.sqrt_sq_eq_abs]

/-- A normalized nonzero vector has unit length. -/
lemma Vec3.normalized_length (v : Vec3) (h : v.length ≠ 0) :
    v.normalized.length = 1 := by
  have h0 : 0 < v.length := lt_of_le_of_ne (Vec3.length_nonneg v) (Ne.symm h)
  rw [Vec3.normalized, if_neg h, Vec3.length_smul,
    abs_of_pos (by positivity), one_div, inv_mul_cancel₀ h]

/-- Length of a horizontal vector in terms of the two live components. -/
lemma Vec3.length_horiz (x z : ℝ) :
    ((⟨x, 0, z⟩ : Vec3)).length = Real.sqrt (x ^ 2 + z ^ 2) := by
  unfold Vec3.length
  norm_num

/-- Horizontal speed is nonnegative. -/
lemma hspeed_nonneg (v : Vec3) : 0 ≤ hspeed v :=
  Real.sqrt_nonneg _

/-- Scaling both horizontal components by a nonnegative factor scales the
horizontal speed by the same factor. -/
lemma hspeed_scale (x z c : ℝ) (hc : 0 ≤ c) :
    Real.sqrt ((x * c) ^ 2 + (z * c) ^ 2) = c * Real.sqrt (x ^ 2 + z ^ 2) := by
  rw [show (x * c) ^ 2 + (z * c) ^ 2 = c ^ 2 * (x ^ 2 + z ^ 2) by ring,
    Real.sqrt_mul (sq_nonneg c), Real.sqrt_sq_eq_abs, abs_of_nonneg hc]

/-! ### Friction analysis -/

/-- With zero input the world-space move direction is the zero vector. -/
lemma move_dir_world_of_input_zero (k : Keys) (cam : Camera)
    (hk : input_dir k = Vec3.zero) : move_dir_world k cam = Vec3.zero := by
  unfold move_dir_world
  dsimp only
  rw [hk, Vec3.length_zero, if_neg (by norm_num)]

/-- The friction step never increases the horizontal speed, and zeroes
both horizontal components exactly when the friction impulse
`FRICTION * dt` is at least the current horizontal speed. -/
lemma apply_friction_spec (dt : ℝ) (s : PState) (hdt : 0 ≤ dt) :
    hspeed (apply_friction dt s).velocity ≤ hspeed s.velocity ∧
    (FRICTION * dt ≥ hspeed s.velocity →
      (apply_friction dt s).velocity.x = 0 ∧
      (apply_friction dt s).velocity.z = 0) := by
  have hFdt : 0 ≤ FRICTION * dt := mul_nonneg (by norm_num [FRICTION]) hdt
  have hL : ((⟨s.velocity.x, 0, s.velocity.z⟩ : Vec3)).length =
      hspeed s.velocity := by
    rw [Vec3.length_horiz]; rfl
  unfold apply_friction
  dsimp only
  split_ifs with h1 h2
  · -- impulse at least the speed: both components zeroed
    constructor
    · show Real.sqrt ((0 : ℝ) ^ 2 + (0 : ℝ) ^ 2) ≤ _
      rw [show (0:ℝ) ^ 2 + (0:ℝ) ^ 2 = 0 by norm_num, Real.sqrt_zero]
      exact hspeed_nonneg _
    · exact fun _ => ⟨rfl, rfl⟩
  · -- impulse smaller than the speed: proportional decay
    rw [hL] at h1
    have hLne : ((⟨s.velocity.x, 0, s.velocity.z⟩ : Vec3)).length ≠ 0 := by
      rw [hL]; exact ne_of_gt h1
    have hffl :
        (((⟨s.velocity.x, 0, s.velocity.z⟩ : Vec3)).normalized.smul
          (FRICTION * dt)).length = FRICTION * dt := by
      rw [Vec3.length_smul, Vec3.normalized_length _ hLne, mul_one,
        abs_of_nonneg hFdt]
    rw [hffl, hL] at h2
    push_neg at h2
    have hlt : FRICTION * dt < hspeed s.velocity := h2
    have hpos : 0 < hspeed s.velocity := lt_of_le_of_lt hFdt hlt
    have hnorm : ((⟨s.velocity.x, 0, s.velocity.z⟩ : Vec3)).normalized =
        ((⟨s.velocity.x, 0, s.velocity.z⟩ : Vec3)).smul
          (1 / hspeed s.velocity) := by
      rw [Vec3.normalized, if_neg hLne, hL]
    rw [hnorm]
    have hc : (0:ℝ) ≤ 1 - FRICTION * dt / hspeed s.velocity := by
      have : FRICTION * dt / hspeed s.velocity < 1 :=
        (div_lt_one hpos).mpr hlt
      linarith
    have hx : s.velocity.x -
        ((((⟨s.velocity.x, 0, s.velocity.z⟩ : Vec3)).smul
          (1 / hspeed s.velocity)).smul (FRICTION * dt)).x =
        s.velocity.x * (1 - FRICTION * dt / hspeed s.velocity) := by
      unfold Vec3.smul; dsimp only; field_simp; ring
    have hz : s.velocity.z -
        ((((⟨s.velocity.x, 0, s.velocity.z⟩ : Vec3)).smul
          (1 / hspeed s.velocity)).smul (FRICTION * dt)).z =
        s.velocity.z * (1 - FRICTION * dt / hspeed s.velocity) := by
      unfold Vec3.smul; dsimp only; field_simp; ring
    constructor
    · show Real.sqrt (_ ^ 2 + _ ^ 2) ≤ _
      rw [hx, hz, hspeed_scale _ _ _ hc]
      calc (1 - FRICTION * dt / hspeed s.velocity) *
            Real.sqrt (s.velocity.x ^ 2 + s.velocity.z ^ 2)
          ≤ 1 * Real.sqrt (s.velocity.x ^ 2 + s.velocity.z ^ 2) := by
            apply mul_le_mul_of_nonneg_right _ (Real.sqrt_nonneg _)
            have : 0 ≤ FRICTION * dt / hspeed s.velocity :=
              div_nonneg hFdt (le_of_lt hpos)
            linarith
        _ = hspeed s.velocity := by rw [one_mul]; rfl
    · intro hge
      exact absurd hge (not_le.mpr hlt)
  · -- zero horizontal velocity: nothing changes
    rw [hL] at h1
    push_neg at h1
    have h0 : hspeed s.velocity = 0 :=
      le_antisymm h1 (hspeed_nonneg _)
    rw [← hL, Vec3.length_eq_zero_iff] at h0
    exact ⟨le_refl _, fun _ => ⟨h0.1, h0.2.2⟩⟩

/-! ### Speed-cap analysis -/

/-- The sprint target is `MAX_SPEED * SPRINT_MULTIPLIER` exactly when the
sprint key is held and the player is not sliding. -/
lemma handle_sprint_input_fst (k : Keys) (s : PState) :
    (handle_sprint_input k s).1 =
      if k.shift = true ∧ ¬ s.is_sliding = true then
        MAX_SPEED * SPRINT_MULTIPLIER
      else MAX_SPEED := by
  unfold handle_sprint_input
  split_ifs <;> rfl

/-- `handle_sprint_input` only writes the sprint flag. -/
lemma handle_sprint_input_snd (k : Keys) (s : PState) :
    (handle_sprint_input k s).2 =
      { s with is_sprinting :=
          decide (k.shift = true ∧ ¬ s.is_sliding = true) } := by
  unfold handle_sprint_input
  split_ifs with h
  · simp [h]
  · simp only [decide_eq_false h]

/-- The frame speed multiplier equals the maximum of `1`, the dash-window
boost `3`, and the jump-speed boost. -/
lemma speed_multiplier_eq (cfg : ExtConfig) (s : PState) :
    speed_multiplier cfg s =
      max 1 (max (if s.dash_timer > DASH_COOLDOWN - 0.5 then 3 else 1)
        (if s.jump_speed_active = true then cfg.JUMP_SPEED_BOOST else 1)) := by
  unfold speed_multiplier
  dsimp only
  split_ifs with h1 h2 <;> norm_num

/-- The frame speed multiplier is at least one. -/
lemma one_le_speed_multiplier (cfg : ExtConfig) (s : PState) :
    1 ≤ speed_multiplier cfg s := by
  rw [speed_multiplier_eq]
  exact le_max_left _ _

/-- The speed-cap step bounds the horizontal speed by the effective max
speed and scales both horizontal components by one common nonnegative
factor. -/
lemma cap_speed_spec (cfg : ExtConfig) (t : ℝ) (s : PState) (ht : 0 ≤ t) :
    hspeed (cap_speed cfg t s).velocity ≤ t * speed_multiplier cfg s ∧
    ∃ c : ℝ, 0 ≤ c ∧
      (cap_speed cfg t s).velocity.x = s.velocity.x * c ∧
      (cap_speed cfg t s).velocity.z = s.velocity.z * c := by
  have he : 0 ≤ t * speed_multiplier cfg s :=
    mul_nonneg ht (le_trans zero_le_one (one_le_speed_multiplier cfg s))
  unfold cap_speed
  dsimp only
  split_ifs with h
  · have hpos : 0 < Real.sqrt (s.velocity.x ^ 2 + s.velocity.z ^ 2) :=
      lt_of_le_of_lt he h
    have hc : 0 ≤ t * speed_multiplier cfg s /
        Real.sqrt (s.velocity.x ^ 2 + s.velocity.z ^ 2) :=
      div_nonneg he (le_of_lt hpos)
    constructor
    · show Real.sqrt (_ ^ 2 + _ ^ 2) ≤ _
      rw [hspeed_scale _ _ _ hc,
        div_mul_cancel₀ _ (ne_of_gt hpos)]
    · exact ⟨_, hc, rfl, rfl⟩
  · exact ⟨not_lt.mp h, 1, zero_le_one, (mul_one _).symm, (mul_one _).symm⟩

/-- The acceleration/friction phase does not touch the dash timer or the
jump-speed flag. -/
lemma momentum_pre_cap_flags (k : Keys) (cam : Camera) (dt : ℝ)
    (s : PState) :
    (momentum_pre_cap k cam dt s).dash_timer = s.dash_timer ∧
    (momentum_pre_cap k cam dt s).jump_speed_active = s.jump_speed_active := by
  unfold momentum_pre_cap apply_friction
  dsimp only
  split_ifs <;> exact ⟨rfl, rfl⟩

/-- The speed multiplier only depends on the dash timer and the
jump-speed flag. -/
lemma speed_multiplier_congr (cfg : ExtConfig) (s₁ s₂ : PState)
    (hd : s₁.dash_timer = s₂.dash_timer)
    (hj : s₁.jump_speed_active = s₂.jump_speed_active) :
    speed_multiplier cfg s₁ = speed_multiplier cfg s₂ := by
  unfold speed_multiplier
  rw [hd, hj]

/-! ### Claim C2 -/

/-- C2: in every frame of ground-locomotion handling, after the speed-cap
step the horizontal speed is at most `targetMaxSpeed * multiplier`, where
`targetMaxSpeed` is `MAX_SPEED * SPRINT_MULTIPLIER` when the sprint key is
held and the player is not sliding and `MAX_SPEED` otherwise, and
`multiplier` is the maximum of `1.0`, `3.0` during the half-second window
after a dash fires, and `JUMP_SPEED_BOOST` while the jump-speed boost is
active; when the cap applies, both horizontal components are scaled by one
common nonnegative factor, preserving direction. -/
theorem C2_speed_cap_invariant (cfg : ExtConfig) (k : Keys) (cam : Camera)
    (dt : ℝ) (s : PState) :
    hspeed (handle_momentum_movement cfg k cam dt
        (handle_sprint_input k s).1 (handle_sprint_input k s).2).velocity ≤
      (if k.shift = true ∧ ¬ s.is_sliding = true then
          MAX_SPEED * SPRINT_MULTIPLIER
        else MAX_SPEED) *
      max 1 (max (if s.dash_timer > DASH_COOLDOWN - 0.5 then 3 else 1)
        (if s.jump_speed_active = true then cfg.JUMP_SPEED_BOOST else 1)) ∧
    ∃ c : ℝ, 0 ≤ c ∧
      (handle_momentum_movement cfg k cam dt
          (handle_sprint_input k s).1 (handle_sprint_input k s).2).velocity.x =
        (momentum_pre_cap k cam dt (handle_sprint_input k s).2).velocity.x * c ∧
      (handle_momentum_movement cfg k cam dt
          (handle_sprint_input k s).1 (handle_sprint_input k s).2).velocity.z =
        (momentum_pre_cap k cam dt (handle_sprint_input k s).2).velocity.z * c := by
  have ht : 0 ≤ (handle_sprint_input k s).1 := by
    rw [handle_sprint_input_fst]
    split_ifs <;> norm_num [MAX_SPEED, SPRINT_MULTIPLIER]
  have hmain := cap_speed_spec cfg (handle_sprint_input k s).1
    (momentum_pre_cap k cam dt (handle_sprint_input k s).2) ht
  have hflags := momentum_pre_cap_flags k cam dt (handle_sprint_input k s).2
  have hsnd := handle_sprint_input_snd k s
  have hmult : speed_multiplier cfg
      (momentum_pre_cap k cam dt (handle_sprint_input k s).2) =
      max 1 (max (if s.dash_timer > DASH_COOLDOWN - 0.5 then 3 else 1)
        (if s.jump_speed_active = true then cfg.JUMP_SPEED_BOOST else 1)) := by
    rw [speed_multiplier_congr cfg _ s
      (by rw [hflags.1, hsnd]) (by rw [hflags.2, hsnd]),
      speed_multiplier_eq]
  unfold handle_momentum_movement
  constructor
  · exact le_of_le_of_eq hmain.1 (by rw [handle_sprint_input_fst, hmult])
  · exact hmain.2

/-! ### Claim C3 -/

/-- C3: on a Grounded frame with zero directional input, ground movement
reduces to the friction step followed by the cap; the friction step never
increases the horizontal speed, and whenever the friction impulse
`FRICTION * dt` is at least the current horizontal speed both horizontal
velocity components are set to exactly zero, so friction never reverses
direction and the speed never becomes negative. -/
theorem C3_friction_never_reverses (cfg : ExtConfig) (k : Keys)
    (cam : Camera) (dt t : ℝ) (s : PState)
    (hg : s.grounded = true) (hk : input_dir k = Vec3.zero) (hdt : 0 ≤ dt) :
    handle_momentum_movement cfg k cam dt t s =
      cap_speed cfg t (apply_friction dt s) ∧
    hspeed (apply_friction dt s).velocity ≤ hspeed s.velocity ∧
    (FRICTION * dt ≥ hspeed s.velocity →
      (apply_friction dt s).velocity.x = 0 ∧
      (apply_friction dt s).velocity.z = 0) := by
  refine ⟨?_, (apply_friction_spec dt s hdt).1, (apply_friction_spec dt s hdt).2⟩
  unfold handle_momentum_movement momentum_pre_cap
  rw [move_dir_world_of_input_zero k cam hk]
  dsimp only
  rw [Vec3.length_zero, if_neg (by norm_num)]

/-- A player state with every field zeroed, used to build the concrete
states of the witnesses below. -/
def pstate0 : PState where
  velocity := Vec3.zero
  is_sliding := false
  slide_velocity := 0
  slide_direction := Vec3.zero
  is_airborne := false
  is_sprinting := false
  slide_timer := 0
  dash_timer := 0
  is_wall_running := false
  wall_run_timer := 0
  wall_normal := Vec3.zero
  wall_run_side := 0
  jump_speed_active := false
  jump_speed_timer := 0
  jump_direction := Vec3.zero
  jump_buffer_timer := 0
  coyote_timer := 0
  was_grounded := false
  jump_held := false
  position := Vec3.zero
  grounded := false
  gravity := PLAYER_GRAVITY
  player_velocity_y := 0
  camera_pivot_y := NORMAL_CAMERA_Y

/-- The all-released key snapshot. -/
def keys0 : Keys := ⟨false, false, false, false, false, false, false, false⟩

/-- A camera looking down the world x axis. -/
def camX : Camera := ⟨⟨1, 0, 0⟩, ⟨0, 0, 1⟩⟩

/-- A placeholder external configuration for the witnesses. -/
def cfg0 : ExtConfig where
  JUMP_SPEED_BOOST := 1.5
  JUMP_SPEED_DURATION := 3
  JUMP_SPEED_PRESERVE := false
  JUMP_SPEED_DIRECTIONAL := true
  JUMP_CUT_ENABLED := true
  JUMP_CUT_MULTIPLIER := 0.5
  JUMP_BUFFER_TIME := 0.15
  COYOTE_TIME := 0.2
  WALL_END_MOMENTUM_KICK := 0.8
  GRAPPLE_ENABLED := true
  GRAPPLE_RANGE := 100
  GRAPPLE_COOLDOWN := 2

/-- With no key held, the input vector is zero. -/
lemma input_dir_keys0 : input_dir keys0 = Vec3.zero := by
  unfold input_dir
  dsimp only
  rw [show (⟨b2r keys0.d - b2r keys0.a, 0, b2r keys0.w - b2r keys0.s⟩ : Vec3)
      = Vec3.zero by norm_num [b2r, keys0, Vec3.zero],
    Vec3.length_zero, if_neg (by norm_num)]

/-- C3 witness: a grounded state moving along x with no input; one frame
of friction (impulse `15 ≥ 1`) zeroes both horizontal components. -/
theorem C3_witness :
    hspeed (apply_friction 1 { pstate0 with
        velocity := ⟨1, 0, 0⟩, grounded := true }).velocity ≤
      hspeed ({ pstate0 with
        velocity := ⟨1, 0, 0⟩, grounded := true } : PState).velocity ∧
    (apply_friction 1 { pstate0 with
        velocity := ⟨1, 0, 0⟩, grounded := true }).velocity.x = 0 ∧
    (apply_friction 1 { pstate0 with
        velocity := ⟨1, 0, 0⟩, grounded := true }).velocity.z = 0 := by
  have h := C3_friction_never_reverses cfg0 keys0 camX 1 MAX_SPEED
    { pstate0 with velocity := ⟨1, 0, 0⟩, grounded := true }
    rfl input_dir_keys0 (by norm_num)
  refine ⟨h.2.1, h.2.2 ?_⟩
  show FRICTION * 1 ≥ Real.sqrt ((1:ℝ) ^ 2 + 0 ^ 2)
  rw [show ((1:ℝ) ^ 2 + 0 ^ 2) = 1 by norm_num, Real.sqrt_one]
  norm_num [FRICTION]

/-! ### Claim C1 -/

/-- `activate_jump_speed` never touches the vertical velocity, the jump
buffer or the coyote timer. -/
lemma activate_jump_speed_preserves (cfg : ExtConfig) (k : Keys)
    (cam : Camera) (s : PState) :
    (activate_jump_speed cfg k cam s).velocity.y = s.velocity.y ∧
    (activate_jump_speed cfg k cam s).jump_buffer_timer =
      s.jump_buffer_timer ∧
    (activate_jump_speed cfg k cam s).coyote_timer = s.coyote_timer := by
  unfold activate_jump_speed
  dsimp only
  split_ifs <;> exact ⟨rfl, rfl, rfl⟩

/-- The jump-execution block writes exactly the computed jump velocity and
zeroes both jump timers. -/
lemma execute_jump_fields (cfg : ExtConfig) (k : Keys) (cam : Camera)
    (s : PState) :
    (execute_jump cfg k cam s).velocity.y = jump_velocity ∧
    (execute_jump cfg k cam s).jump_buffer_timer = 0 ∧
    (execute_jump cfg k cam s).coyote_timer = 0 := by
  unfold execute_jump consume_jump
  dsimp only
  refine ⟨?_, ?_, ?_⟩
  · rw [(activate_jump_speed_preserves cfg k cam _).1]
  · rw [(activate_jump_speed_preserves cfg k cam _).2.1]
  · rw [(activate_jump_speed_preserves cfg k cam _).2.2]

/-- C1: whenever a jump executes (buffered input present and grounded or
within coyote time), the vertical velocity is set to exactly
`sqrt(2 * (9.8 * PLAYER_GRAVITY) * PLAYER_JUMP_HEIGHT)` — which is
`sqrt(19.6)` at the configured values — and the jump buffer and coyote
timers are both zeroed so the same press cannot trigger a second jump;
when the jump key is still held the frame ends with that exact vertical
velocity (no jump cut applies). -/
theorem C1_jump_sets_velocity_and_consumes (cfg : ExtConfig) (k : Keys)
    (cam : Camera) (s : PState)
    (hfire : (handle_jump_input cfg k s).1 = true) :
    (execute_jump cfg k cam (handle_jump_input cfg k s).2).velocity.y =
      Real.sqrt (2 * (9.8 * PLAYER_GRAVITY) * PLAYER_JUMP_HEIGHT) ∧
    (execute_jump cfg k cam (handle_jump_input cfg k s).2).velocity.y =
      Real.sqrt 19.6 ∧
    (execute_jump cfg k cam (handle_jump_input cfg k s).2).jump_buffer_timer
      = 0 ∧
    (execute_jump cfg k cam (handle_jump_input cfg k s).2).coyote_timer = 0 ∧
    (k.space = true → (handle_jumping cfg k cam s).velocity.y =
      Real.sqrt (2 * (9.8 * PLAYER_GRAVITY) * PLAYER_JUMP_HEIGHT)) := by
  have hfields := execute_jump_fields cfg k cam (handle_jump_input cfg k s).2
  have hval : jump_velocity = Real.sqrt 19.6 := by
    unfold jump_velocity
    norm_num [PLAYER_GRAVITY, PLAYER_JUMP_HEIGHT]
  refine ⟨hfields.1, ?_, hfields.2.1, hfields.2.2, ?_⟩
  · rw [hfields.1, hval]
  · intro hspace
    unfold handle_jumping
    dsimp only
    rw [if_pos hfire, handle_jump_cut,
      if_neg (fun hcut => hcut.2.1 hspace)]
    exact hfields.1

/-- C1 witness: grounded state, jump key freshly pressed; the jump
executes with vertical velocity `sqrt(19.6)` and both timers are zero. -/
theorem C1_witness :
    (execute_jump cfg0 { keys0 with space := true } camX
        (handle_jump_input cfg0 { keys0 with space := true }
          { pstate0 with grounded := true }).2).velocity.y =
      Real.sqrt 19.6 ∧
    (execute_jump cfg0 { keys0 with space := true } camX
        (handle_jump_input cfg0 { keys0 with space := true }
          { pstate0 with grounded := true }).2).jump_buffer_timer = 0 ∧
    (execute_jump cfg0 { keys0 with space := true } camX
        (handle_jump_input cfg0 { keys0 with space := true }
          { pstate0 with grounded := true }).2).coyote_timer = 0 := by
  have hfire : (handle_jump_input cfg0 { keys0 with space := true }
      { pstate0 with grounded := true }).1 = true := by
    unfold handle_jump_input
    dsimp only
    rw [if_pos (show ({ keys0 with space := true } : Keys).space = true
      from rfl)]
    rw [if_pos (show ¬ pstate0.jump_held = true by simp [pstate0])]
    split_ifs with h
    · rfl
    · exact absurd ⟨by norm_num [cfg0], Or.inl rfl⟩ h
  have h := C1_jump_sets_velocity_and_consumes cfg0
    { keys0 with space := true } camX { pstate0 with grounded := true } hfire
  exact ⟨h.2.1, h.2.2.1, h.2.2.2.1⟩

/-! ### Claim C7 -/

/-- C7: starting a slide (slide key pressed while sprinting, not already
sliding, cooldown elapsed) sets `slideSpeed = SLIDE_START_VELOCITY`,
`slideDirection` to the current facing, starts the cooldown and zeroes
both horizontal velocity components at the instant of entry; and on any
sliding frame without slope acceleration (no ground hit, or level ground
normal) the slide speed is non-increasing and floored at zero. -/
theorem C7_slide_entry_and_decay (world : Ray) (k : Keys) (fwd : Vec3)
    (dt : ℝ) (s sP : PState) :
    ((k.ctrl = true ∧ ¬ s.is_sliding = true ∧ s.slide_timer ≤ 0 ∧
        s.is_sprinting = true) →
      ((handle_slide_trigger k fwd s).is_sliding = true ∧
       (handle_slide_trigger k fwd s).slide_velocity = SLIDE_START_VELOCITY ∧
       (handle_slide_trigger k fwd s).slide_direction = fwd.normalized ∧
       (handle_slide_trigger k fwd s).slide_timer = SLIDE_COOLDOWN ∧
       (handle_slide_trigger k fwd s).velocity.x = 0 ∧
       (handle_slide_trigger k fwd s).velocity.z = 0)) ∧
    (sP.is_sliding = true → 0 ≤ dt → 0 ≤ sP.slide_velocity →
      ((world sP.position ⟨0, -1, 0⟩ 2).hit = false ∨
        (world sP.position ⟨0, -1, 0⟩ 2).normal.y = 1) →
      ((handle_sliding_physics world k dt sP).slide_velocity ≤
        sP.slide_velocity ∧
       0 ≤ (handle_sliding_physics world k dt sP).slide_velocity)) := by
  constructor
  · intro hc
    unfold handle_slide_trigger
    rw [if_pos hc]
    exact ⟨rfl, rfl, rfl, rfl, rfl, rfl⟩
  · intro hsl hdt h0 hns
    have hsf : (0:ℝ) ≤ SLIDE_FRICTION * dt :=
      mul_nonneg (by norm_num [SLIDE_FRICTION]) hdt
    unfold handle_sliding_physics
    dsimp only
    rw [if_pos hsl]
    by_cases h2 : (world sP.position ⟨0, -1, 0⟩ 2).hit = true
    · have hny : (world sP.position ⟨0, -1, 0⟩ 2).normal.y = 1 := by
        rcases hns with hnh | hny
        · rw [hnh] at h2; exact absurd h2 Bool.false_ne_true
        · exact hny
      have hX : sP.slide_velocity +
          GRAVITY_FORCE * (1 - (world sP.position ⟨0, -1, 0⟩ 2).normal.y) * dt
          = sP.slide_velocity := by rw [hny]; ring
      rw [if_pos h2]
      split_ifs with h3 h4 h5 <;> dsimp only
      · exact ⟨h0, le_refl 0⟩
      · exact ⟨h0, le_refl 0⟩
      · constructor
        · exact max_le (by linarith) h0
        · exact le_max_right _ _
      · constructor
        · rw [hX]; exact max_le (by linarith) h0
        · exact le_max_right _ _
    · rw [if_neg h2]
      split_ifs with h3 h4 h5 <;> dsimp only
      · exact ⟨h0, le_refl 0⟩
      · exact ⟨h0, le_refl 0⟩
      · constructor
        · exact max_le (by linarith) h0
        · exact le_max_right _ _
      · constructor
        · exact max_le (by linarith) h0
        · exact le_max_right _ _

/-- A world whose every raycast reports a hit on level ground (normal
straight up) with an attached entity. -/
def worldFlat : Ray := fun _ _ _ => ⟨true, ⟨0, 1, 0⟩, Vec3.zero, true⟩

/-- Keys with only the slide key held. -/
def kCtrl : Keys := { keys0 with ctrl := true }

/-- A sprinting grounded state about to slide. -/
def sSprintW : PState := { pstate0 with is_sprinting := true }

/-- A sliding state moving at slide speed 10. -/
def sSlideW : PState :=
  { pstate0 with is_sliding := true, slide_velocity := 10 }

/-- C7 witness: a sprinting state with the slide key pressed enters the
slide with the documented entry effects, and a sliding frame over level
ground does not increase the slide speed. -/
theorem C7_witness :
    ((handle_slide_trigger kCtrl ⟨1, 0, 0⟩ sSprintW).is_sliding = true ∧
     (handle_slide_trigger kCtrl ⟨1, 0, 0⟩ sSprintW).slide_velocity =
       SLIDE_START_VELOCITY ∧
     (handle_slide_trigger kCtrl ⟨1, 0, 0⟩ sSprintW).velocity.x = 0 ∧
     (handle_slide_trigger kCtrl ⟨1, 0, 0⟩ sSprintW).velocity.z = 0) ∧
    ((handle_sliding_physics worldFlat keys0 0.02 sSlideW).slide_velocity ≤
       sSlideW.slide_velocity ∧
     0 ≤ (handle_sliding_physics worldFlat keys0 0.02
        sSlideW).slide_velocity) := by
  have hA := (C7_slide_entry_and_decay worldFlat kCtrl ⟨1, 0, 0⟩ 0.02
    sSprintW sSlideW).1
    ⟨rfl, by simp [sSprintW, pstate0], by simp [sSprintW, pstate0], rfl⟩
  have hB := (C7_slide_entry_and_decay worldFlat keys0 ⟨1, 0, 0⟩ 0.02
    sSprintW sSlideW).2
    rfl (by norm_num) (by norm_num [sSlideW, pstate0]) (Or.inr rfl)
  exact ⟨⟨hA.1, hA.2.1, hA.2.2.2.2.1, hA.2.2.2.2.2⟩, hB.1, hB.2⟩

/-! ### Claim C6 -/

/-- Normalizing preserves a zero vertical component. -/
lemma Vec3.normalized_y_zero (v : Vec3) (hy : v.y = 0) :
    v.normalized.y = 0 := by
  unfold Vec3.normalized
  split_ifs
  · rfl
  · show v.y * _ = 0
    rw [hy, zero_mul]

/-- The unit x vector has length one. -/
lemma Vec3.length_unitX : ((⟨1, 0, 0⟩ : Vec3)).length = 1 := by
  unfold Vec3.length
  norm_num

/-- The unit x vector is already normalized. -/
lemma Vec3.normalized_unitX : ((⟨1, 0, 0⟩ : Vec3)).normalized = ⟨1, 0, 0⟩ := by
  unfold Vec3.normalized
  rw [if_neg (by rw [Vec3.length_unitX]; norm_num), Vec3.length_unitX]
  unfold Vec3.smul
  norm_num

/-- On an airborne dash the resulting vertical velocity is the starting
vertical velocity plus the look-direction boost, clamped to `[-30, 30]`. -/
lemma handle_dash_input_air_y (k : Keys) (cam : Camera) (s : PState)
    (hq : k.q = true) (ht : s.dash_timer ≤ 0) (hair : s.grounded = false) :
    (handle_dash_input k cam s).velocity.y =
      max (-30) (min 30 (s.velocity.y +
        cam.forward.normalized.y * (DASH_FORCE * 0.6) * 0.7)) := by
  unfold handle_dash_input
  dsimp only
  rw [if_pos ⟨hq, ht⟩]
  split_ifs <;> dsimp only <;> simp_all

/-- C6 (amended): an airborne dash with the camera exactly level changes
only the horizontal velocity components and leaves the vertical component
unchanged, provided the starting vertical velocity lies in the clamp
range `[-30, 30]`; outside that range the air-dash clamp rewrites it. -/
theorem C6_airdash_keeps_vertical (k : Keys) (cam : Camera) (s : PState)
    (hq : k.q = true) (htimer : s.dash_timer ≤ 0) (hair : s.grounded = false)
    (hlevel : cam.forward.y = 0)
    (hlo : -30 ≤ s.velocity.y) (hhi : s.velocity.y ≤ 30) :
    (handle_dash_input k cam s).velocity.y = s.velocity.y := by
  rw [handle_dash_input_air_y k cam s hq htimer hair]
  rw [show s.velocity.y + cam.forward.normalized.y * (DASH_FORCE * 0.6) * 0.7
      = s.velocity.y from by rw [Vec3.normalized_y_zero _ hlevel]; ring]
  rw [min_eq_right hhi, max_eq_right hlo]

/-- Keys with only the dash key held. -/
def kQ : Keys := { keys0 with q := true }

/-- An airborne state with vertical velocity `40`, above the air-dash
clamp range. -/
def sC6 : PState := { pstate0 with velocity := ⟨0, 40, 0⟩ }

/-- C6 counterexample: with the camera level and vertical velocity `40`,
an airborne dash clamps the vertical velocity to `30`, so the dash does
not leave the vertical component unchanged for every starting velocity. -/
theorem C6_counterexample :
    (handle_dash_input kQ camX sC6).velocity.y = 30 ∧
    sC6.velocity.y = 40 ∧
    (handle_dash_input kQ camX sC6).velocity.y ≠ sC6.velocity.y := by
  have h := handle_dash_input_air_y kQ camX sC6 rfl
    (by norm_num [sC6, pstate0]) rfl
  rw [show camX.forward = (⟨1, 0, 0⟩ : Vec3) from rfl,
    Vec3.normalized_unitX] at h
  have h30 : (handle_dash_input kQ camX sC6).velocity.y = 30 := by
    rw [h]
    norm_num [sC6, pstate0, DASH_FORCE, min_def, max_def]
  refine ⟨h30, rfl, ?_⟩
  rw [h30]
  norm_num [sC6, pstate0]

/-- An airborne state with vertical velocity `5`, inside the clamp range. -/
def sC6W : PState := { pstate0 with velocity := ⟨0, 5, 0⟩ }

/-- C6 witness: an airborne dash with the camera level and vertical
velocity `5` leaves the vertical velocity unchanged. -/
theorem C6_witness :
    (handle_dash_input kQ camX sC6W).velocity.y = sC6W.velocity.y :=
  C6_airdash_keeps_vertical kQ camX sC6W rfl
    (by norm_num [sC6W, pstate0]) rfl rfl
    (by norm_num [sC6W, pstate0]) (by norm_num [sC6W, pstate0])

/-! ### Claim C10 -/

/-- C10: `spawn_targets` appends targets only for an int count with
`0 < count ≤ 50`; for a non-int, non-positive or greater-than-50 count it
leaves the pool unchanged — no clamping and no error. -/
theorem C10_spawn_count_validation (mk : ℕ → Target) (pool : List Target)
    (count : PyCount) :
    (∀ n : ℤ, count = PyCount.int n → 0 < n → n ≤ 50 →
      spawn_targets mk pool count = pool ++ (List.range n.toNat).map mk ∧
      (spawn_targets mk pool count).length = pool.length + n.toNat) ∧
    (count = PyCount.other ∨
      (∃ n : ℤ, count = PyCount.int n ∧ (n ≤ 0 ∨ 50 < n)) →
      spawn_targets mk pool count = pool) := by
  constructor
  · intro n hn hpos hle
    subst hn
    unfold spawn_targets
    dsimp only
    rw [if_neg (by omega)]
    exact ⟨rfl, by rw [List.length_append, List.length_map,
      List.length_range]⟩
  · intro h
    rcases h with h | ⟨n, hn, hbad⟩
    · subst h; rfl
    · subst hn
      unfold spawn_targets
      dsimp only
      rw [if_pos (by omega)]

/-- C10 witness: a count of `60` spawns nothing, a count of `3` appends
exactly three targets. -/
theorem C10_witness (mk : ℕ → Target) :
    spawn_targets mk [] (PyCount.int 60) = [] ∧
    (spawn_targets mk [] (PyCount.int 3)).length = 3 := by
  constructor
  · exact (C10_spawn_count_validation mk [] (PyCount.int 60)).2
      (Or.inr ⟨60, rfl, by omega⟩)
  · have h := ((C10_spawn_count_validation mk [] (PyCount.int 3)).1 3 rfl
      (by omega) (by omega)).2
    simpa using h

/-! ### Claim C8 -/

/-- C8: the collision probe returns `none` for a missing origin or
direction, a zero-length direction, a zero origin, or a non-positive
distance, and converts any exception of the underlying raycast into
`none`; it performs no state mutation (it is a pure function of its
arguments by construction). -/
theorem C8_probe_tolerates_bad_input (world : RayE) (o d : Vec3) (dist : ℝ)
    (e : Unit) :
    (check_collision world none (some d) dist = none) ∧
    (check_collision world (some o) none dist = none) ∧
    (check_collision world (some o) (some Vec3.zero) dist = none) ∧
    (dist ≤ 0 → check_collision world (some o) (some d) dist = none) ∧
    (world (o.add PLAYER_CENTER_OFFSET) d (dist + COLLISION_BUFFER) =
        Except.error e →
      check_collision world (some o) (some d) dist = none) := by
  refine ⟨?_, ?_, ?_, ?_, ?_⟩
  · unfold check_collision pyFalsyV
    rw [if_pos (Or.inl (Or.inl rfl))]
  · unfold check_collision pyFalsyV
    rw [if_pos (Or.inr (Or.inl (Or.inl rfl)))]
  · unfold check_collision pyFalsyV
    rw [if_pos (Or.inr (Or.inl (Or.inr rfl)))]
  · intro hd
    unfold check_collision pyFalsyV
    rw [if_pos (Or.inr (Or.inr hd))]
  · intro herr
    unfold check_collision
    split_ifs with h
    · rfl
    · dsimp only
      rw [herr]

/-- C8 witness: a probe with a raycast that always raises returns `none`
on a well-formed query, and a zero direction returns `none`. -/
theorem C8_witness :
    check_collision (fun _ _ _ => Except.error ()) (some ⟨1, 2, 3⟩)
      (some ⟨1, 0, 0⟩) 5 = none ∧
    check_collision (fun _ _ _ => Except.error ()) (some ⟨1, 2, 3⟩)
      (some Vec3.zero) 5 = none := by
  constructor
  · exact (C8_probe_tolerates_bad_input (fun _ _ _ => Except.error ())
      ⟨1, 2, 3⟩ ⟨1, 0, 0⟩ 5 ()).2.2.2.2 rfl
  · exact (C8_probe_tolerates_bad_input (fun _ _ _ => Except.error ())
      ⟨1, 2, 3⟩ ⟨1, 0, 0⟩ 5 ()).2.2.1

/-! ### Claim C9 -/

/-- C9: `fire_grapple` attaches — returning `true`, storing the hit point
as the anchor, setting the active flag, creating the visual line and
starting the cooldown — exactly when grappling is enabled, the cooldown
has elapsed, the grapple is not already active and the forward raycast up
to `GRAPPLE_RANGE` returns a hit with an attached entity; in every other
case (including a raycast exception) it returns `false` and leaves the
state unchanged. -/
theorem C9_fire_grapple_gating (cfg : ExtConfig) (world : RayE)
    (cp cf : Vec3) (w : WState) :
    ((fire_grapple cfg world cp cf w).1 = true ↔
      (cfg.GRAPPLE_ENABLED = true ∧ ¬ w.grapple_timer > 0 ∧
       ¬ w.grapple_active = true ∧
       ∃ h : HitInfo, world cp cf cfg.GRAPPLE_RANGE = Except.ok h ∧
         h.hit = true ∧ h.entity = true)) ∧
    ((fire_grapple cfg world cp cf w).1 = true →
      ∃ h : HitInfo, world cp cf cfg.GRAPPLE_RANGE = Except.ok h ∧
        (fire_grapple cfg world cp cf w).2.grapple_point = some h.point ∧
        (fire_grapple cfg world cp cf w).2.grapple_active = true ∧
        (fire_grapple cfg world cp cf w).2.grapple_line = true ∧
        (fire_grapple cfg world cp cf w).2.grapple_timer =
          cfg.GRAPPLE_COOLDOWN) ∧
    ((fire_grapple cfg world cp cf w).1 = false →
      (fire_grapple cfg world cp cf w).2 = w) := by
  unfold fire_grapple
  by_cases h1 : ¬ cfg.GRAPPLE_ENABLED = true ∨ w.grapple_timer > 0
  · rw [if_pos h1]
    refine ⟨⟨fun hf => absurd hf (by simp), ?_⟩, fun hf => absurd hf (by
      simp), fun _ => rfl⟩
    rintro ⟨hen, hnt, -, -⟩
    rcases h1 with hne | ht
    · exact absurd hen hne
    · exact absurd ht hnt
  · rw [if_neg h1]
    push_neg at h1
    by_cases h2 : w.grapple_active = true
    · rw [if_pos h2]
      refine ⟨⟨fun hf => absurd hf (by simp), ?_⟩, fun hf => absurd hf (by
        simp), fun _ => rfl⟩
      rintro ⟨-, -, hna, -⟩
      exact absurd h2 hna
    · rw [if_neg h2]
      rcases hres : world cp cf cfg.GRAPPLE_RANGE with e | hh
      · dsimp only
        refine ⟨⟨fun hf => absurd hf (by simp), ?_⟩, fun hf => absurd hf
          (by simp), fun _ => rfl⟩
        rintro ⟨-, -, -, h3, habs, -⟩
        exact absurd habs (by simp)
      · dsimp only
        by_cases hhe : hh.hit = true ∧ hh.entity = true
        · rw [if_pos hhe]
          have hcl : create_grapple_line
              { w with grapple_point := some hh.point,
                       grapple_active := true } =
              { w with grapple_point := some hh.point,
                       grapple_active := true, grapple_line := true } := by
            unfold create_grapple_line
            have hpp : ({ w with grapple_point := some hh.point, grapple_active := true } : WState).grapple_point.isSome = true := rfl
            rw [if_pos hpp]
          refine ⟨⟨fun _ => ⟨h1.1, not_lt.mpr h1.2, h2, hh, rfl, hhe.1,
            hhe.2⟩, fun _ => rfl⟩, fun _ => ⟨hh, rfl, ?_, ?_, ?_, rfl⟩,
            fun hf => absurd hf (by simp)⟩
          · show (create_grapple_line _).grapple_point = some hh.point
            rw [hcl]
          · show (create_grapple_line _).grapple_active = true
            rw [hcl]
          · show (create_grapple_line _).grapple_line = true
            rw [hcl]
        · rw [if_neg hhe]
          refine ⟨⟨fun hf => absurd hf (by simp), ?_⟩, fun hf => absurd hf
            (by simp), fun _ => rfl⟩
          rintro ⟨-, -, -, h3, hres2, hhit, hent⟩
          obtain rfl := Except.ok.inj hres2
          exact (hhe ⟨hhit, hent⟩).elim

/-- A raycast that always reports a hit with an attached entity at point
`(2, 3, 4)`. -/
def worldHitE : RayE := fun _ _ _ => Except.ok ⟨true, Vec3.zero, ⟨2, 3, 4⟩,
  true⟩

/-- An idle grapple state with the cooldown elapsed. -/
def wIdle : WState := ⟨0, false, none, false⟩

/-- A grapple state still on cooldown. -/
def wCooling : WState := ⟨1, false, none, false⟩

/-- C9 witness: from the idle state the grapple attaches and stores the
hit point; while on cooldown it returns `false` and changes nothing. -/
theorem C9_witness :
    (fire_grapple cfg0 worldHitE Vec3.zero ⟨1, 0, 0⟩ wIdle).1 = true ∧
    (fire_grapple cfg0 worldHitE Vec3.zero ⟨1, 0, 0⟩
      wIdle).2.grapple_point = some (⟨2, 3, 4⟩ : Vec3) ∧
    (fire_grapple cfg0 worldHitE Vec3.zero ⟨1, 0, 0⟩ wCooling).2 =
      wCooling := by
  have hfire : (fire_grapple cfg0 worldHitE Vec3.zero ⟨1, 0, 0⟩
      wIdle).1 = true :=
    (C9_fire_grapple_gating cfg0 worldHitE Vec3.zero ⟨1, 0, 0⟩ wIdle).1.mpr
      ⟨rfl, by norm_num [wIdle], by simp [wIdle],
       ⟨⟨true, Vec3.zero, ⟨2, 3, 4⟩, true⟩, rfl, rfl, rfl⟩⟩
  obtain ⟨h, hres, hpoint, -, -, -⟩ :=
    (C9_fire_grapple_gating cfg0 worldHitE Vec3.zero ⟨1, 0, 0⟩
      wIdle).2.1 hfire
  have hh : h = ⟨true, Vec3.zero, ⟨2, 3, 4⟩, true⟩ := by
    have := hres
    unfold worldHitE at this
    exact (Except.ok.injEq _ _ ▸ this).symm
  have hcool : (fire_grapple cfg0 worldHitE Vec3.zero ⟨1, 0, 0⟩
      wCooling).1 = false := by
    cases hb : (fire_grapple cfg0 worldHitE Vec3.zero ⟨1, 0, 0⟩
        wCooling).1 with
    | false => rfl
    | true =>
      obtain ⟨-, hnt, -, -⟩ := (C9_fire_grapple_gating cfg0 worldHitE
        Vec3.zero ⟨1, 0, 0⟩ wCooling).1.mp hb
      exact absurd (by norm_num [wCooling] :
        wCooling.grapple_timer > 0) hnt
  refine ⟨hfire, ?_, (C9_fire_grapple_gating cfg0 worldHitE Vec3.zero
    ⟨1, 0, 0⟩ wCooling).2.2 hcool⟩
  rw [hpoint, hh]

/-! ### Wall-running analysis -/

/-- The default head of a nonempty list is a member. -/
lemma headI_mem_of_ne_nil {α : Type} [Inhabited α] (l : List α)
    (h : l ≠ []) : l.headI ∈ l := by
  cases l with
  | nil => exact absurd rfl h
  | cons a t => exact List.mem_cons_self a t

/-- `apply_wall_running_physics` never touches the wall-running flag. -/
lemma apply_wrp_is_wall_running (cam : Camera) (dt : ℝ) (s : PState) :
    (apply_wall_running_physics cam dt s).is_wall_running =
      s.is_wall_running := by
  unfold apply_wall_running_physics disable_ursina_physics
  dsimp only
  split_ifs <;> rfl

/-- The head of a nonempty filtered probe list is an actual probe hit:
some height offset produced it. -/
lemma probe_evidence (world : Ray) (pos : Vec3) (dir : Vec3)
    (hne : ((wall_probe_offsets.map (fun ho =>
        world (pos.add ⟨0, ho, 0⟩) dir 2.0)).filter
        (fun h => h.hit)) ≠ []) :
    ∃ ho ∈ wall_probe_offsets,
      (world (pos.add ⟨0, ho, 0⟩) dir 2.0).hit = true ∧
      ((wall_probe_offsets.map (fun ho =>
          world (pos.add ⟨0, ho, 0⟩) dir 2.0)).filter
          (fun h => h.hit)).headI.normal =
        (world (pos.add ⟨0, ho, 0⟩) dir 2.0).normal := by
  have hmem := headI_mem_of_ne_nil _ hne
  rw [List.mem_filter] at hmem
  obtain ⟨hmap, hpred⟩ := hmem
  obtain ⟨ho, hho, heq⟩ := List.mem_map.mp hmap
  refine ⟨ho, hho, ?_, ?_⟩
  · rw [heq]; exact hpred
  · rw [heq]

/-- Necessary conditions for `detect_wall_for_running` to report a wall:
forward key held, side `±1` matching the held strafe key, a near-vertical
normal, and the normal coming from one of the lateral probes. -/
lemma detect_wall_necessary (world : Ray) (k : Keys) (cam : Camera)
    (s : PState) (n : Vec3) (side : ℤ)
    (hdet : detect_wall_for_running world k cam s = (some n, side)) :
    k.w = true ∧ (side = 1 ∨ side = -1) ∧ |n.y| < 0.5 ∧
    (side = 1 → k.d = true ∧ ∃ ho ∈ wall_probe_offsets,
      (world (s.position.add ⟨0, ho, 0⟩) cam.right.normalized 2.0).hit =
        true ∧
      n = (world (s.position.add ⟨0, ho, 0⟩) cam.right.normalized
        2.0).normal) ∧
    (side = -1 → k.a = true ∧ ∃ ho ∈ wall_probe_offsets,
      (world (s.position.add ⟨0, ho, 0⟩) cam.right.normalized.neg 2.0).hit =
        true ∧
      n = (world (s.position.add ⟨0, ho, 0⟩) cam.right.normalized.neg
        2.0).normal) := by
  unfold detect_wall_for_running at hdet
  by_cases h1 : s.is_sliding = true
  · rw [if_pos h1] at hdet; exact absurd hdet (by simp)
  rw [if_neg h1] at hdet
  by_cases h2 : ¬ k.w = true
  · rw [if_pos h2] at hdet; exact absurd hdet (by simp)
  rw [if_neg h2] at hdet
  rw [not_not] at h2
  by_cases h3 : Real.sqrt (s.velocity.x ^ 2 + s.velocity.z ^ 2) <
      WALL_RUN_MIN_SPEED
  · rw [if_pos h3] at hdet; exact absurd hdet (by simp)
  rw [if_neg h3] at hdet
  dsimp only at hdet
  split_ifs at hdet with h4 h5 h6 h7 h8 h9 h10 h11
  · -- right wall fires
    rw [Prod.mk.injEq, Option.some.injEq] at hdet
    obtain ⟨hn, hside⟩ := hdet
    obtain ⟨ho, hho, hhit, hnorm⟩ :=
      probe_evidence world s.position cam.right.normalized h6.1
    refine ⟨h2, Or.inl hside.symm, hn ▸ h6.2.2.1, ?_, ?_⟩
    · exact fun _ => ⟨h6.2.1, ho, hho, hhit, by rw [← hn]; exact hnorm⟩
    · intro hcontra
      rw [← hside] at hcontra
      norm_num at hcontra
  · -- left wall fires
    rw [Prod.mk.injEq, Option.some.injEq] at hdet
    obtain ⟨hn, hside⟩ := hdet
    obtain ⟨ho, hho, hhit, hnorm⟩ :=
      probe_evidence world s.position cam.right.normalized.neg h7.1
    refine ⟨h2, Or.inr hside.symm, hn ▸ h7.2.2.1, ?_, ?_⟩
    · intro hcontra
      rw [← hside] at hcontra
      norm_num at hcontra
    · exact fun _ => ⟨h7.2.1, ho, hho, hhit, by rw [← hn]; exact hnorm⟩
  · exact absurd hdet (by simp)
  · norm_num at h8
  · norm_num at h9
  · exact absurd hdet (by simp)
  · norm_num at h10
  · norm_num at h11
  · exact absurd hdet (by simp)

/-- While wall-running: the run continues exactly while the wall is still
detected and jump is not pressed; on either stop path the wall-run state
is reset (flag cleared, side `0`, timer `0`) and the engine gravity is
restored to `PLAYER_GRAVITY`. -/
lemma handle_wall_running_active (cfg : ExtConfig) (world : Ray) (k : Keys)
    (cam : Camera) (dt : ℝ) (s : PState)
    (hwr : s.is_wall_running = true) :
    ((first_wall_hit world s.position
        (if s.wall_run_side = 1 then cam.right else cam.right.neg)).isSome =
          true → k.space = false →
      (handle_wall_running cfg world k cam dt s).is_wall_running = true) ∧
    ((first_wall_hit world s.position
        (if s.wall_run_side = 1 then cam.right else cam.right.neg) = none ∨
        k.space = true) →
      ((handle_wall_running cfg world k cam dt s).is_wall_running = false ∧
       (handle_wall_running cfg world k cam dt s).gravity = PLAYER_GRAVITY ∧
       (handle_wall_running cfg world k cam dt s).wall_run_side = 0 ∧
       (handle_wall_running cfg world k cam dt s).wall_run_timer = 0)) ∧
    ((handle_wall_running cfg world k cam dt s).is_wall_running = false →
      ((handle_wall_running cfg world k cam dt s).gravity = PLAYER_GRAVITY ∧
       (handle_wall_running cfg world k cam dt s).wall_run_side = 0 ∧
       (handle_wall_running cfg world k cam dt s).wall_run_timer = 0)) := by
  unfold handle_wall_running restore_ursina_physics
  rw [if_neg (not_not_intro hwr)]
  dsimp only
  rcases hfe : first_wall_hit world s.position
      (if s.wall_run_side = 1 then cam.right else cam.right.neg)
    with - | fh
  · -- wall gone: always stops
    simp only [Option.elim_none, Option.isSome_none]
    rw [if_pos (Or.inl (by simp) :
      ¬ (false = true) ∨ k.space = true)]
    refine ⟨fun hsome _ => absurd hsome (by simp), fun _ => ?_, fun _ => ?_⟩
    · exact ⟨rfl, rfl, rfl, rfl⟩
    · exact ⟨rfl, rfl, rfl⟩
  · -- wall still present
    simp only [Option.elim_some, Option.isSome_some, eq_self_iff_true,
      not_true, if_false, false_or]
    by_cases hspace : k.space = true
    · simp only [if_pos hspace]
      refine ⟨fun _ hs => absurd hspace (by rw [hs]; simp), fun _ => ?_,
        fun _ => ?_⟩
      · exact ⟨by trivial, by trivial, by trivial, by trivial⟩
      · exact ⟨by trivial, by trivial, by trivial⟩
    · simp only [if_neg hspace]
      refine ⟨fun _ _ => ?_, ?_, fun hr => ?_⟩
      · rw [apply_wrp_is_wall_running]
        exact hwr
      · rintro (hc | hc)
        · exact absurd hc (by simp)
        · exact absurd hc hspace
      · rw [apply_wrp_is_wall_running] at hr
        dsimp only at hr
        rw [hwr] at hr
        exact absurd hr (by simp)

/-- When not wall-running, `handle_wall_running` either leaves the state
unchanged or enters the wall run with the detected normal and side. -/
lemma handle_wall_running_inactive (cfg : ExtConfig) (world : Ray)
    (k : Keys) (cam : Camera) (dt : ℝ) (s : PState)
    (hwr : s.is_wall_running = false) :
    handle_wall_running cfg world k cam dt s = s ∨
    ∃ n : Vec3, ∃ side : ℤ,
      detect_wall_for_running world k cam s = (some n, side) ∧
      s.grounded = false ∧
      handle_wall_running cfg world k cam dt s =
        { s with is_wall_running := true, wall_normal := n,
                 wall_run_side := side, wall_run_timer := 0 } := by
  unfold handle_wall_running
  rw [if_pos (by rw [hwr]; exact Bool.false_ne_true)]
  rcases hdet : detect_wall_for_running world k cam s with ⟨dn, dside⟩
  cases dn with
  | none => exact Or.inl rfl
  | some n =>
    dsimp only
    split_ifs with hc
    · refine Or.inr ⟨n, dside, rfl, ?_, rfl⟩
      cases hgb : s.grounded with
      | false => rfl
      | true => exact absurd hgb hc.2.2
    · exact Or.inl rfl

/-! ### Claims C4 and C5 -/

/-- C4 (amended): wall-running starts only when the forward key and the
strafe key matching the wall side are held and a near-vertical wall
(`|normal.y| < 0.5`) is detected by a lateral probe; while active, the
run ends within one frame when the wall is no longer detected or when
jump is pressed, and it continues (released movement keys do not end it)
when the wall is still detected and jump is not pressed. -/
theorem C4_wall_run_entry_and_exit (cfg : ExtConfig) (world : Ray)
    (k : Keys) (cam : Camera) (dt : ℝ) (s : PState) :
    (s.is_wall_running = false →
      (handle_wall_running cfg world k cam dt s).is_wall_running = true →
      k.w = true ∧
      ((handle_wall_running cfg world k cam dt s).wall_run_side = 1 ∨
       (handle_wall_running cfg world k cam dt s).wall_run_side = -1) ∧
      |(handle_wall_running cfg world k cam dt s).wall_normal.y| < 0.5 ∧
      ((handle_wall_running cfg world k cam dt s).wall_run_side = 1 →
        k.d = true ∧ ∃ ho ∈ wall_probe_offsets,
          (world (s.position.add ⟨0, ho, 0⟩) cam.right.normalized 2.0).hit
            = true ∧
          (handle_wall_running cfg world k cam dt s).wall_normal =
            (world (s.position.add ⟨0, ho, 0⟩) cam.right.normalized
              2.0).normal) ∧
      ((handle_wall_running cfg world k cam dt s).wall_run_side = -1 →
        k.a = true ∧ ∃ ho ∈ wall_probe_offsets,
          (world (s.position.add ⟨0, ho, 0⟩) cam.right.normalized.neg
            2.0).hit = true ∧
          (handle_wall_running cfg world k cam dt s).wall_normal =
            (world (s.position.add ⟨0, ho, 0⟩) cam.right.normalized.neg
              2.0).normal)) ∧
    (s.is_wall_running = true →
      first_wall_hit world s.position
        (if s.wall_run_side = 1 then cam.right else cam.right.neg) = none →
      (handle_wall_running cfg world k cam dt s).is_wall_running = false) ∧
    (s.is_wall_running = true → k.space = true →
      (handle_wall_running cfg world k cam dt s).is_wall_running = false) ∧
    (s.is_wall_running = true → k.space = false →
      (first_wall_hit world s.position
        (if s.wall_run_side = 1 then cam.right else
          cam.right.neg)).isSome = true →
      (handle_wall_running cfg world k cam dt s).is_wall_running = true) := by
  refine ⟨?_, ?_, ?_, ?_⟩
  · intro h0 hr
    rcases handle_wall_running_inactive cfg world k cam dt s h0 with
      heq | ⟨n, side, hdet, -, heq⟩
    · rw [heq, h0] at hr
      exact absurd hr (by simp)
    · obtain ⟨hw, hside, hy, hR, hL⟩ :=
        detect_wall_necessary world k cam s n side hdet
      rw [heq]
      dsimp only
      exact ⟨hw, hside, hy, hR, hL⟩
  · intro h1 hnone
    exact ((handle_wall_running_active cfg world k cam dt s h1).2.1
      (Or.inl hnone)).1
  · intro h1 hspace
    exact ((handle_wall_running_active cfg world k cam dt s h1).2.1
      (Or.inr hspace)).1
  · intro h1 hspace hsome
    exact (handle_wall_running_active cfg world k cam dt s h1).1
      hsome hspace

/-- A raycast that always reports a wall with the near-vertical normal
`(-1, 0, 0)`. -/
def worldWallR : Ray := fun _ _ _ => ⟨true, ⟨-1, 0, 0⟩, Vec3.zero, true⟩

/-- A raycast that never hits anything. -/
def worldMiss : Ray := fun _ _ _ => ⟨false, Vec3.zero, Vec3.zero, false⟩

/-- Keys with only the jump key held. -/
def kSpace : Keys := { keys0 with space := true }

/-- A state wall-running on a right wall. -/
def sWR : PState :=
  { pstate0 with is_wall_running := true, wall_run_side := 1, wall_normal := ⟨-1, 0, 0⟩ }

/-- C4 counterexample: with all movement keys released but the wall still
detected and jump not pressed, the wall run stays active after the frame,
so releasing the held keys does not trigger an exit within one frame. -/
theorem C4_counterexample :
    keys0.w = false ∧ keys0.d = false ∧ keys0.a = false ∧
    sWR.is_wall_running = true ∧
    (handle_wall_running cfg0 worldWallR keys0 camX 0.016
      sWR).is_wall_running = true := by
  refine ⟨rfl, rfl, rfl, rfl, ?_⟩
  exact (handle_wall_running_active cfg0 worldWallR keys0 camX 0.016 sWR
    rfl).1 rfl rfl

/-- C4 witness: while wall-running, pressing jump ends the run within the
frame, and so does losing the wall. -/
theorem C4_witness :
    (handle_wall_running cfg0 worldMiss kSpace camX 0.016
      sWR).is_wall_running = false ∧
    (handle_wall_running cfg0 worldMiss keys0 camX 0.016
      sWR).is_wall_running = false := by
  constructor
  · exact (C4_wall_run_entry_and_exit cfg0 worldMiss kSpace camX 0.016
      sWR).2.2.1 rfl rfl
  · exact (C4_wall_run_entry_and_exit cfg0 worldMiss keys0 camX 0.016
      sWR).2.1 rfl rfl

/-- C5 (amended): on every exit from wall-running, along every exit path,
the engine gravity is restored to `PLAYER_GRAVITY`, the wall side is
reset to `0`, the wall-run timer is reset, and the wall-running flag is
cleared; the stored `wallNormal`, however, is not cleared and keeps its
last value. -/
theorem C5_wall_run_exit_state (cfg : ExtConfig) (world : Ray) (k : Keys)
    (cam : Camera) (dt : ℝ) (s : PState)
    (hwr : s.is_wall_running = true)
    (hexit : (handle_wall_running cfg world k cam dt s).is_wall_running =
      false) :
    (handle_wall_running cfg world k cam dt s).gravity = PLAYER_GRAVITY ∧
    (handle_wall_running cfg world k cam dt s).wall_run_side = 0 ∧
    (handle_wall_running cfg world k cam dt s).wall_run_timer = 0 ∧
    (handle_wall_running cfg world k cam dt s).is_wall_running = false := by
  obtain ⟨hg, hside, htimer⟩ :=
    (handle_wall_running_active cfg world k cam dt s hwr).2.2 hexit
  exact ⟨hg, hside, htimer, hexit⟩

/-- C5 counterexample: a wall jump exits the wall run but leaves the
stored wall normal at its last value `(-1, 0, 0)` instead of clearing
it. -/
theorem C5_counterexample :
    sWR.is_wall_running = true ∧
    (handle_wall_running cfg0 worldWallR kSpace camX 0.016
      sWR).is_wall_running = false ∧
    (handle_wall_running cfg0 worldWallR kSpace camX 0.016
      sWR).wall_normal = (⟨-1, 0, 0⟩ : Vec3) ∧
    (handle_wall_running cfg0 worldWallR kSpace camX 0.016
      sWR).wall_normal ≠ Vec3.zero := by
  have hnorm : (handle_wall_running cfg0 worldWallR kSpace camX 0.016
      sWR).wall_normal = (⟨-1, 0, 0⟩ : Vec3) := by
    unfold handle_wall_running restore_ursina_physics
    rw [if_neg (not_not_intro (show sWR.is_wall_running = true from rfl))]
    dsimp only
    rw [show first_wall_hit worldWallR sWR.position
        (if sWR.wall_run_side = 1 then camX.right else camX.right.neg) =
        some ⟨true, ⟨-1, 0, 0⟩, Vec3.zero, true⟩ from rfl]
    simp only [Option.elim_some, Option.isSome_some, eq_self_iff_true,
      not_true, if_false, false_or]
    simp only [show kSpace.space = true from rfl, if_true]
  have hexit : (handle_wall_running cfg0 worldWallR kSpace camX 0.016
      sWR).is_wall_running = false :=
    ((handle_wall_running_active cfg0 worldWallR kSpace camX 0.016 sWR
      rfl).2.1 (Or.inr rfl)).1
  refine ⟨rfl, hexit, hnorm, ?_⟩
  rw [hnorm]
  intro hzero
  have := congrArg Vec3.x hzero
  norm_num [Vec3.zero] at this

/-- C5 witness: a wall jump off a lost wall exits with gravity restored,
wall side `0` and the timer reset. -/
theorem C5_witness :
    (handle_wall_running cfg0 worldMiss kSpace camX 0.016 sWR).gravity =
      PLAYER_GRAVITY ∧
    (handle_wall_running cfg0 worldMiss kSpace camX 0.016
      sWR).wall_run_side = 0 ∧
    (handle_wall_running cfg0 worldMiss kSpace camX 0.016
      sWR).wall_run_timer = 0 ∧
    (handle_wall_running cfg0 worldMiss kSpace camX 0.016
      sWR).is_wall_running = false := by
  have hexit : (handle_wall_running cfg0 worldMiss kSpace camX 0.016
      sWR).is_wall_running = false :=
    ((handle_wall_running_active cfg0 worldMiss kSpace camX 0.016 sWR
      rfl).2.1 (Or.inr rfl)).1
  exact C5_wall_run_exit_state cfg0 worldMiss kSpace camX 0.016 sWR
    rfl hexit

end TimeShot
